import Mathlib

/-
Verification development for the smartshopper-ai repository.

Shallow embedding conventions:
* Python `str` values are Lean `String`s; the Python string operations used by
  the code (`lower`, `strip`, `in`, `split`, `replace`) are re-implemented over
  `List Char` so that they compute by kernel reduction.  `str.strip()` strips
  ASCII whitespace, which covers every input appearing in the development.
* Python floats are idealized: prices/ratings as `ℚ`, embedding coordinates as
  `ℝ` (cosine similarity needs square roots).
* A Python `try/except` around effectful calls is embedded by passing the
  effectful collaborators as `Except`-valued oracles and pattern matching on
  the outcome; `PyErr` stands for any raised exception.
-/

set_option maxRecDepth 8000

namespace SmartShopper

/-- A raised Python exception (the code only ever catches blanket `Exception`). -/
inductive PyErr
  | exn
deriving DecidableEq, Repr

/-! ## Python string primitives -/

instance instDecEqExcept {ε α : Type _} [DecidableEq ε] [DecidableEq α] :
    DecidableEq (Except ε α)
  | .error e, .error f =>
    if h : e = f then isTrue (h ▸ rfl) else isFalse fun hh => h (Except.error.inj hh)
  | .error _, .ok _ => isFalse fun hh => Except.noConfusion hh
  | .ok _, .error _ => isFalse fun hh => Except.noConfusion hh
  | .ok a, .ok b =>
    if h : a = b then isTrue (h ▸ rfl) else isFalse fun hh => h (Except.ok.inj hh)

/-- Python `str.lower()` (the keywords matched by the code are ASCII). -/
def pyLower (s : String) : String := ⟨s.data.map Char.toLower⟩

/-- Characters stripped by Python `str.strip()` (ASCII fragment). -/
def isPySpace (c : Char) : Bool :=
  c = ' ' || c = '\t' || c = '\n' || c = '\r' || c = '\x0b' || c = '\x0c'

/-- Python `str.strip()`. -/
def pyStrip (s : String) : String :=
  ⟨((s.data.dropWhile isPySpace).reverse.dropWhile isPySpace).reverse⟩

/-- Python `sub in hay` substring test. -/
def containsSub (hay sub : String) : Bool :=
  hay.data.tails.any (fun t => sub.data.isPrefixOf t)

/-- Python `str.split()` with no argument: split on whitespace runs, no empties. -/
def splitWhitespaceAux : List Char → List Char → List String
  | [], acc => if acc.isEmpty then [] else [⟨acc.reverse⟩]
  | c :: cs, acc =>
    if isPySpace c then
      if acc.isEmpty then splitWhitespaceAux cs []
      else ⟨acc.reverse⟩ :: splitWhitespaceAux cs []
    else splitWhitespaceAux cs (c :: acc)

def splitWhitespace (s : String) : List String := splitWhitespaceAux s.data []

/-! ## Data model (src/src/models.py) -/

/-- models.py `ProductCategory` (a `str` enum). -/
inductive ProductCategory
  | electronics | clothing | home | books | sports | beauty | automotive | groceries | other
deriving DecidableEq, Repr

/-- The string value of each `ProductCategory` member. -/
def ProductCategory.value : ProductCategory → String
  | .electronics => "electronics"
  | .clothing => "clothing"
  | .home => "home"
  | .books => "books"
  | .sports => "sports"
  | .beauty => "beauty"
  | .automotive => "automotive"
  | .groceries => "groceries"
  | .other => "other"

/-- models.py `Product`.  URL and timestamp fields are omitted: no modeled
logic reads them (they are only serialized when indexing). -/
structure Product where
  id : String
  name : String
  description : String
  category : ProductCategory
  price : ℚ
  currency : String := "USD"
  brand : Option String := none
  model : Option String := none
  sku : Option String := none
  features : List String := []
  tags : List String := []
  in_stock : Bool := true
  stock_quantity : Option Nat := none
  rating : Option ℚ := none
  review_count : Nat := 0
deriving DecidableEq, Repr

/-- models.py `SearchRequest`, with the pydantic field defaults
(`in_stock_only` defaults to `True`, models.py line 66). -/
structure SearchRequest where
  query : String
  category : Option ProductCategory := none
  min_price : Option ℚ := none
  max_price : Option ℚ := none
  brand : Option String := none
  in_stock_only : Bool := true
  min_rating : Option ℚ := none
  page : Nat := 1
  page_size : Nat := 20
deriving DecidableEq, Repr

/-- models.py `SearchResponse`. -/
structure SearchResponse where
  query : String
  products : List Product
  total : Nat
  page : Nat
  page_size : Nat
  total_pages : Nat
deriving DecidableEq, Repr

/-- models.py `ChatMessage` (`context` is unused by `AIService.chat`). -/
structure ChatMessage where
  message : String
deriving DecidableEq, Repr

/-- models.py `ChatResponse`; `context` is the `{"search_terms": ...}` mapping
or `None`. -/
structure ChatResponse where
  response : String
  products : List Product := []
  suggestions : List String := []
  context : Option (List (String × String)) := none
deriving DecidableEq, Repr

/-! ## Search query planner (src/src/search.py `_build_search_query`) -/

/-- The `multi_match` relevance clause dict. -/
structure MultiMatch where
  query : String
  fields : List String
deriving DecidableEq, Repr

/-- A member of the `must_clauses` list. -/
inductive MustClause
  | matchAll
  | multiMatch (m : MultiMatch)
deriving DecidableEq, Repr

/-- A member of the `filter_clauses` list, one constructor per dict shape the
code appends.  `rangePrice` carries the `gte`/`lte` keys of the `price_range`
dict (each present exactly when set). -/
inductive FilterClause
  | termCategory (value : ProductCategory)
  | termBrandKeyword (value : String)
  | termInStock (value : Bool)
  | rangePrice (gte : Option ℚ) (lte : Option ℚ)
  | rangeRating (gte : ℚ)
deriving DecidableEq, Repr

/-- The returned query dict: `{"bool": {"must": ..., "filter": ...}}`, the
`filter` key present exactly when `filter_clauses` is nonempty. -/
structure EsQuery where
  must : List MustClause
  filter : Option (List FilterClause)
deriving DecidableEq, Repr

/-- search.py lines 179-227.  Truthiness tests in the source (`if
search_request.category:`, `if search_request.brand:`) are embedded as
`Option` match plus a non-empty-string test on the value, which is what
Python truthiness means for an optional `str`(-enum); `is not None` tests are
embedded as `Option.isSome`. -/
def _build_search_query (r : SearchRequest) : EsQuery :=
  let must_clauses : List MustClause :=
    if pyStrip r.query ≠ "" then
      [.multiMatch ⟨r.query, ["name^3", "description^2", "brand^2", "features", "tags"]⟩]
    else
      [.matchAll]
  let filter_clauses : List FilterClause :=
    (match r.category with
      | some c => if c.value ≠ "" then [.termCategory c] else []
      | none => []) ++
    (match r.brand with
      | some b => if b ≠ "" then [.termBrandKeyword b] else []
      | none => []) ++
    (if r.in_stock_only then [.termInStock true] else []) ++
    (if r.min_price.isSome || r.max_price.isSome then
        [.rangePrice r.min_price r.max_price]
      else []) ++
    (match r.min_rating with
      | some m => [.rangeRating m]
      | none => [])
  { must := must_clauses,
    filter := if filter_clauses ≠ [] then some filter_clauses else none }

/-! Observation functions over the structured query (spec side). -/

/-- The hard-filter list of a structured query (empty when the `filter` key is
absent). -/
def EsQuery.filtersOut (q : EsQuery) : List FilterClause := q.filter.getD []

/-- All lower price bounds (`gte` keys of `range:price` clauses) in the query. -/
def lowerPriceBounds (q : EsQuery) : List ℚ :=
  q.filtersOut.filterMap fun f =>
    match f with
    | .rangePrice g _ => g
    | _ => none

/-- All upper price bounds (`lte` keys of `range:price` clauses) in the query. -/
def upperPriceBounds (q : EsQuery) : List ℚ :=
  q.filtersOut.filterMap fun f =>
    match f with
    | .rangePrice _ l => l
    | _ => none

/-- All rating floors (`gte` keys of `range:rating` clauses) in the query. -/
def ratingFloors (q : EsQuery) : List ℚ :=
  q.filtersOut.filterMap fun f =>
    match f with
    | .rangeRating g => some g
    | _ => none

/-- All category equality filters in the query. -/
def categoryFilters (q : EsQuery) : List ProductCategory :=
  q.filtersOut.filterMap fun f =>
    match f with
    | .termCategory c => some c
    | _ => none

/-- All brand equality filters in the query. -/
def brandFilters (q : EsQuery) : List String :=
  q.filtersOut.filterMap fun f =>
    match f with
    | .termBrandKeyword b => some b
    | _ => none

/-- Whether the query contains an `in_stock` term filter. -/
def hasInStockFilter (q : EsQuery) : Bool :=
  q.filtersOut.any fun f =>
    match f with
    | .termInStock _ => true
    | _ => false

/-- Reading of an Elasticsearch boosted field string `"name^3"` as
(field, weight); a field without a `^` suffix has weight 1. -/
def boostWeight (s : String) : String × Nat :=
  match s.data.splitOn '^' with
  | [f, w] => (⟨f⟩, w.foldl (fun n c => 10 * n + (c.toNat - 48)) 0)
  | _ => (s, 1)

/-! ## Search execution (src/src/search.py `search_products`)

The Elasticsearch client is an external collaborator: it is embedded as an
oracle from (query body, from-offset, page size) to either a raised exception
or a hit list plus total count.  Parsing each hit into a `Product`
(`Product(**product_data)`, which pydantic may reject) is likewise external,
so a hit is carried as an already-decided parse outcome. -/

/-- The part of an `es.search` response the code reads: `hits.hits` (each hit
reduced to the outcome of `Product(**hit["_source"])`) and
`hits.total.value`. -/
structure EsSearchResult where
  hits : List (Except PyErr Product)
  total : Nat
deriving Repr

/-- The Elasticsearch `search` call: arguments are the query dict, the `from`
offset and the `size`; the call may raise. -/
def EsOracle : Type := EsQuery → Nat → Nat → Except PyErr EsSearchResult

/-- search.py lines 124-177.  `from_index = (page - 1) * page_size`; hits that
fail to parse are skipped with a warning; `total_pages = (total + page_size -
1) // page_size`; any exception yields the empty response with `total = 0`
and `total_pages = 0` echoing query and pagination. -/
def search_products (es : EsOracle) (r : SearchRequest) : SearchResponse :=
  match es (_build_search_query r) ((r.page - 1) * r.page_size) r.page_size with
  | .error _ =>
    { query := r.query, products := [], total := 0,
      page := r.page, page_size := r.page_size, total_pages := 0 }
  | .ok res =>
    { query := r.query,
      products := res.hits.filterMap Except.toOption,
      total := res.total,
      page := r.page, page_size := r.page_size,
      total_pages := (res.total + r.page_size - 1) / r.page_size }

/-! ## Conversational orchestrator (src/src/ai_service.py) -/

/-- ai_service.py lines 101-110: the category keyword table, in insertion
order. -/
def category_keywords : List (String × String) :=
  [("phone", "smartphone"), ("laptop", "laptop"), ("headphones", "headphones"),
   ("jeans", "jeans"), ("cooking", "kitchen"), ("book", "programming"),
   ("shoes", "sneakers"), ("skincare", "moisturizer")]

/-- ai_service.py lines 113-117: the brand keyword list. -/
def brand_keywords : List String :=
  ["apple", "iphone", "macbook", "sony", "nike", "levi\x27s", "levis",
   "instant pot", "cerave"]

def budget_words : List String := ["cheap", "budget", "affordable", "under"]

def premium_words : List String := ["premium", "expensive", "high-end", "best"]

def stop_words : List String :=
  ["what", "where", "when", "how", "can", "could", "would", "should",
   "the", "and", "or", "but"]

/-- ai_service.py lines 136-146: strip `?`/`!` (via `str.replace` with the
empty replacement, i.e. deletion of every occurrence) and trim; long messages
are reduced to the first five keyword tokens. -/
def cleanupMessage (message : String) : String :=
  let cleaned := pyStrip ⟨message.data.filter (fun c => c ≠ '?' && c ≠ '!')⟩
  if cleaned.data.length > 50 then
    let words := splitWhitespace cleaned
    let key_words := words.filter
      (fun w => decide (w.data.length > 3) && !(stop_words.contains (pyLower w)))
    " ".intercalate (key_words.take 5)
  else cleaned

/-- ai_service.py lines 95-146 `_extract_search_terms`: first category-table
hit, else first brand-list hit, else budget/premium intent words, else the
cleaned-up message. -/
def _extract_search_terms (message : String) : String :=
  let ml := pyLower message
  match category_keywords.find? (fun kv => containsSub ml kv.1) with
  | some kv => kv.2
  | none =>
    match brand_keywords.find? (fun b => containsSub ml b) with
    | some b => b
    | none =>
      if budget_words.any (fun w => containsSub ml w) then "budget"
      else if premium_words.any (fun w => containsSub ml w) then "premium"
      else cleanupMessage message

/-- Python `int()` truncation of a rational (float) toward zero. -/
def pyInt (q : ℚ) : Int := if 0 ≤ q then ⌊q⌋ else -⌊-q⌋

/-- ai_service.py lines 255-284 `_generate_suggestions`: electronics-related
suggestions, then price-anchored suggestions around the integer-truncated
mean price; four generic suggestions when no products; truncated to 3. -/
def _generate_suggestions (user_message : String) (products : List Product) :
    List String :=
  let suggestions : List String :=
    if !products.isEmpty then
      (if products.any (fun p => p.category = .electronics) then
        ["Show me more electronics", "Compare similar products",
         "Find budget electronics"]
       else []) ++
      (let prices := products.map (·.price)
       if !prices.isEmpty then
         let avg_price := prices.sum / prices.length
         ["Find products under $" ++ toString (pyInt avg_price),
          "Show premium options above $" ++ toString (pyInt avg_price)]
       else [])
    else
      ["Browse popular products", "Show me deals and discounts",
       "Help me find something specific", "Show me trending items"]
  suggestions.take 3

/-- The effectful collaborators of one chat turn, each of which may raise:
intent extraction, candidate retrieval (`search_service.search_products`),
response generation (the provider cascade plus rule-based fallback), and
suggestion synthesis.  `standardChatEnv` ties the pure steps back to their
source implementations. -/
structure ChatEnv where
  extract : String → Except PyErr String
  search : SearchRequest → Except PyErr SearchResponse
  generate : String → List Product → Except PyErr String
  suggest : String → List Product → Except PyErr (List String)

/-- The body of the `try` block of ai_service.py lines 57-84: the four
pipeline steps.  Candidates are fetched only for a truthy (non-empty) search
term, with `page_size = 5` and the remaining `SearchRequest` defaults. -/
def chatPipeline (env : ChatEnv) (msg : ChatMessage) : Except PyErr ChatResponse := do
  let search_terms ← env.extract msg.message
  let products ←
    if search_terms ≠ "" then do
      let search_response ← env.search { query := search_terms, page_size := 5 }
      pure search_response.products
    else
      pure []
  let ai_response ← env.generate msg.message products
  let suggestions ← env.suggest msg.message products
  pure { response := ai_response, products := products,
         suggestions := suggestions,
         context := some [("search_terms", search_terms)] }

/-- ai_service.py lines 86-93: the `except` arm of `chat`. -/
def fallbackChatResponse : ChatResponse :=
  { response := "I apologize, but I\x27m having trouble processing your request right now. Please try again later.",
    products := [],
    suggestions := ["Try a different search", "Browse categories", "Contact support"],
    context := none }

/-- ai_service.py lines 57-93 `chat`: run the pipeline, absorbing any raised
exception into the fixed fallback response. -/
def chat (env : ChatEnv) (msg : ChatMessage) : ChatResponse :=
  match chatPipeline env msg with
  | .ok r => r
  | .error _ => fallbackChatResponse

/-- The chat environment whose pure steps are the source implementations;
retrieval and generation stay oracle-valued (they wrap external services). -/
def standardChatEnv (search : SearchRequest → Except PyErr SearchResponse)
    (generate : String → List Product → Except PyErr String) : ChatEnv :=
  { extract := fun m => .ok (_extract_search_terms m),
    search := search,
    generate := generate,
    suggest := fun m ps => .ok (_generate_suggestions m ps) }

/-! ## Visual similarity matcher (src/src/vision_service.py)

Embeddings are 1-D numpy float arrays, idealized as `List ℝ`.  `np.dot` of two
1-D arrays raises a `ValueError` when their lengths differ, which
`calculate_similarity` catches, returning `0.0`; this is embedded by an
`Except`-valued dot product. -/

/-- Sum of squares of a vector. -/
def sumSq (v : List ℝ) : ℝ := (v.map (fun x => x * x)).sum

/-- `np.linalg.norm` of a 1-D array. -/
noncomputable def l2norm (v : List ℝ) : ℝ := Real.sqrt (sumSq v)

/-- `v / np.linalg.norm(v)` (elementwise). -/
noncomputable def normalizeVec (v : List ℝ) : List ℝ := v.map (fun x => x / l2norm v)

/-- `np.dot` on 1-D arrays: the inner product, raising on length mismatch. -/
def dotE : List ℝ → List ℝ → Except PyErr ℝ
  | [], [] => .ok 0
  | a :: as, b :: bs =>
    match dotE as bs with
    | .ok s => .ok (a * b + s)
    | .error e => .error e
  | _, _ => .error .exn

/-- vision_service.py lines 212-235 `calculate_similarity`: normalize both
vectors, take the dot product, and return `0.0` if anything raises.  (A
zero-norm embedding makes Python produce NaN rather than raise; the claims
under verification only concern nonzero embeddings, and this embedding uses
the reals' total division there.) -/
noncomputable def calculate_similarity (embedding1 embedding2 : List ℝ) : ℝ :=
  match dotE (normalizeVec embedding1) (normalizeVec embedding2) with
  | .ok s => s
  | .error _ => 0

/-- The similarity-descending order used to sort `(product_id, score)` pairs. -/
def simGE (a b : String × ℝ) : Prop := b.2 ≤ a.2

noncomputable instance : DecidableRel simGE := fun a b => Real.decidableLE b.2 a.2

/-- vision_service.py lines 237-272 `search_similar_products`: score every
candidate, keep those with score `>= threshold`, sort by score descending
(Python `list.sort` is stable, as is insertion sort), return the first
`top_k`. -/
noncomputable def search_similar_products (query_embedding : List ℝ)
    (product_embeddings : List (String × List ℝ))
    (top_k : Nat) (threshold : ℝ) : List (String × ℝ) :=
  let similarities : List (String × ℝ) :=
    product_embeddings.filterMap fun pe =>
      let similarity := calculate_similarity query_embedding pe.2
      if threshold ≤ similarity then some (pe.1, similarity) else none
  (similarities.insertionSort simGE).take top_k

/-! ## Cache layer (src/src/cache.py `_generate_cache_key`)

`_generate_cache_key(prefix, data)` computes
`f"{prefix}:{md5(json.dumps(data, sort_keys=True, default=str)).hexdigest()}"`.

The payload (`data`) is embedded as a flat dict: a list of key/value pairs.
Python dict keys relevant here are strings or ints; values are `None`, bools,
ints, strings, or arbitrary non-JSON objects, which `default=str` serializes
through their `str()` rendering (`PyVal.obj` carries that rendering).
`json.dumps(..., sort_keys=True)` sorts string keys lexicographically and int
keys numerically, raises `TypeError` on mixed key types, and stringifies
every key in the output.  The default separators are `", "`//`": "` and
`ensure_ascii=True` escapes every non-ASCII character, so the serialized form
is pure ASCII and its UTF-8 encoding is its code-point sequence. -/

/-- MD5 (RFC 1321) over a byte list, little-endian words, 64 rounds. -/
def md5K : List Nat :=
  [0xd76aa478, 0xe8c7b756, 0x242070db, 0xc1bdceee,
   0xf57c0faf, 0x4787c62a, 0xa8304613, 0xfd469501,
   0x698098d8, 0x8b44f7af, 0xffff5bb1, 0x895cd7be,
   0x6b901122, 0xfd987193, 0xa679438e, 0x49b40821,
   0xf61e2562, 0xc040b340, 0x265e5a51, 0xe9b6c7aa,
   0xd62f105d, 0x02441453, 0xd8a1e681, 0xe7d3fbc8,
   0x21e1cde6, 0xc33707d6, 0xf4d50d87, 0x455a14ed,
   0xa9e3e905, 0xfcefa3f8, 0x676f02d9, 0x8d2a4c8a,
   0xfffa3942, 0x8771f681, 0x6d9d6122, 0xfde5380c,
   0xa4beea44, 0x4bdecfa9, 0xf6bb4b60, 0xbebfbc70,
   0x289b7ec6, 0xeaa127fa, 0xd4ef3085, 0x04881d05,
   0xd9d4d039, 0xe6db99e5, 0x1fa27cf8, 0xc4ac5665,
   0xf4292244, 0x432aff97, 0xab9423a7, 0xfc93a039,
   0x655b59c3, 0x8f0ccc92, 0xffeff47d, 0x85845dd1,
   0x6fa87e4f, 0xfe2ce6e0, 0xa3014314, 0x4e0811a1,
   0xf7537e82, 0xbd3af235, 0x2ad7d2bb, 0xeb86d391]

def md5S : List Nat :=
  [7, 12, 17, 22, 7, 12, 17, 22, 7, 12, 17, 22, 7, 12, 17, 22,
   5, 9, 14, 20, 5, 9, 14, 20, 5, 9, 14, 20, 5, 9, 14, 20,
   4, 11, 16, 23, 4, 11, 16, 23, 4, 11, 16, 23, 4, 11, 16, 23,
   6, 10, 15, 21, 6, 10, 15, 21, 6, 10, 15, 21, 6, 10, 15, 21]

/-- Left-rotate a 32-bit word. -/
def rotl32 (x n : Nat) : Nat := (x <<< n) % 4294967296 + x >>> (32 - n)

/-- Round function and message index of MD5 round `i`. -/
def md5F (i b c d : Nat) : Nat × Nat :=
  if i < 16 then ((b &&& c) ||| ((4294967295 - b) &&& d), i)
  else if i < 32 then ((d &&& b) ||| ((4294967295 - d) &&& c), (5 * i + 1) % 16)
  else if i < 48 then (b ^^^ c ^^^ d, (3 * i + 5) % 16)
  else (c ^^^ (b ||| (4294967295 - d)), (7 * i) % 16)

/-- One MD5 round on state (a, b, c, d). -/
def md5Step (M : List Nat) (st : Nat × Nat × Nat × Nat) (i : Nat) :
    Nat × Nat × Nat × Nat :=
  let (a, b, c, d) := st
  let (f, g) := md5F i b c d
  let f := (f + a + md5K.getD i 0 + M.getD g 0) % 4294967296
  (d, (b + rotl32 f (md5S.getD i 0)) % 4294967296, b, c)

/-- Little-endian 32-bit words of a byte list. -/
def bytesToWords : List Nat → List Nat
  | b0 :: b1 :: b2 :: b3 :: rest =>
    (b0 + 256 * b1 + 65536 * b2 + 16777216 * b3) :: bytesToWords rest
  | _ => []

/-- One 512-bit block. -/
def md5Block (st : Nat × Nat × Nat × Nat) (blockBytes : List Nat) :
    Nat × Nat × Nat × Nat :=
  let M := bytesToWords blockBytes
  let (a, b, c, d) := (List.range 64).foldl (md5Step M) st
  ((st.1 + a) % 4294967296, (st.2.1 + b) % 4294967296,
   (st.2.2.1 + c) % 4294967296, (st.2.2.2 + d) % 4294967296)

/-- Split into 64-byte chunks (fuel-driven; the input length is the fuel). -/
def chunks64 : Nat → List Nat → List (List Nat)
  | 0, _ => []
  | _, [] => []
  | fuel + 1, l => l.take 64 :: chunks64 fuel (l.drop 64)

/-- MD5 padding: 0x80, zeros to 56 mod 64, then the 64-bit little-endian bit
length. -/
def md5Pad (msg : List Nat) : List Nat :=
  let len := msg.length
  let bitlen := (len * 8) % (2 ^ 64)
  let zeros := (119 - len % 64) % 64
  msg ++ 128 :: List.replicate zeros 0 ++
    ((List.range 8).map fun i => bitlen / 256 ^ i % 256)

/-- Little-endian bytes of a 32-bit word. -/
def wordBytes (w : Nat) : List Nat :=
  [w % 256, w / 256 % 256, w / 65536 % 256, w / 16777216 % 256]

def md5Bytes (msg : List Nat) : List Nat :=
  let padded := md5Pad msg
  let (a, b, c, d) := (chunks64 padded.length padded).foldl md5Block
    (0x67452301, 0xefcdab89, 0x98badcfe, 0x10325476)
  wordBytes a ++ wordBytes b ++ wordBytes c ++ wordBytes d

/-- A lowercase hex digit. -/
def hexChar (n : Nat) : Char := if n < 10 then Char.ofNat (48 + n) else Char.ofNat (87 + n)

/-- `hashlib.md5(bytes).hexdigest()` as a character list. -/
def md5hexdigest (msg : List Nat) : List Char :=
  (md5Bytes msg).foldr (fun b acc => hexChar (b / 16) :: hexChar (b % 16) :: acc) []

/-- A Python dict key: a string or an int (the key types exercised by this
code base). -/
inductive PyKey
  | str (s : String)
  | int (n : Int)
deriving DecidableEq, Repr

/-- A Python value in a cached payload.  `obj r` is an arbitrary non-JSON
object whose `str()` rendering is `r`; `json.dumps(..., default=str)`
serializes it exactly like the string `r`. -/
inductive PyVal
  | none
  | bool (b : Bool)
  | int (n : Int)
  | str (s : String)
  | obj (r : String)
deriving DecidableEq, Repr

/-- A flat Python dict payload (keys are distinct in an actual dict). -/
abbrev PyDict := List (PyKey × PyVal)

/-- Four lowercase hex digits of a code unit (for `\uXXXX` escapes). -/
def hex4 (n : Nat) : List Char :=
  [12, 8, 4, 0].map fun sh => hexChar (n >>> sh % 16)

/-- `json.dumps` (`ensure_ascii=True`) escaping of one character: the JSON
short escapes, `\uXXXX` for other control characters and for every
non-ASCII character (astral characters become a surrogate pair). -/
def escChar (c : Char) : List Char :=
  if c = '"' then ['\\', '"']
  else if c = '\\' then ['\\', '\\']
  else if c = '\n' then ['\\', 'n']
  else if c = '\t' then ['\\', 't']
  else if c = '\r' then ['\\', 'r']
  else if c = '\x08' then ['\\', 'b']
  else if c = '\x0c' then ['\\', 'f']
  else if c.toNat < 32 then '\\' :: 'u' :: hex4 c.toNat
  else if c.toNat < 127 then [c]
  else if c.toNat < 65536 then '\\' :: 'u' :: hex4 c.toNat
  else
    ('\\' :: 'u' :: hex4 (55296 + (c.toNat - 65536) / 1024)) ++
    ('\\' :: 'u' :: hex4 (56320 + (c.toNat - 65536) % 1024))

/-- A JSON string literal: quoted, characters escaped. -/
def encJsonString (s : String) : List Char :=
  '"' :: (s.data.map escChar).flatten ++ ['"']

/-- Decimal rendering of an int (Python `repr`). -/
def intChars (n : Int) : List Char :=
  if n < 0 then '-' :: Nat.toDigits 10 n.natAbs else Nat.toDigits 10 n.natAbs

/-- Serialization of one value. -/
def encVal : PyVal → List Char
  | .none => "null".data
  | .bool true => "true".data
  | .bool false => "false".data
  | .int n => intChars n
  | .str s => encJsonString s
  | .obj r => encJsonString r

/-- The stringified (always-quoted) output form of a dict key. -/
def encKey : PyKey → List Char
  | .str s => encJsonString s
  | .int n => '"' :: intChars n ++ ['"']

/-- Python string `<=`: lexicographic code-point order. -/
def charListLe : List Char → List Char → Bool
  | [], _ => true
  | _ :: _, [] => false
  | a :: as, b :: bs =>
    if a.toNat < b.toNat then true
    else if b.toNat < a.toNat then false
    else charListLe as bs

/-- The key order `sort_keys=True` sorts by: code-point order on strings,
numeric order on ints.  The cross-type cases are irrelevant (mixed key types
make `json.dumps` raise before sorting); they are completed arbitrarily so
the relation is total. -/
def pyKeyLe : PyKey → PyKey → Bool
  | .str a, .str b => charListLe a.data b.data
  | .int a, .int b => a ≤ b
  | .int _, .str _ => true
  | .str _, .int _ => false

/-- Whether all keys are strings or all keys are ints (`sort_keys=True`
raises `TypeError` otherwise). -/
def keysHomogeneous (d : PyDict) : Bool :=
  (d.all fun kv => match kv.1 with | .str _ => true | .int _ => false) ||
  (d.all fun kv => match kv.1 with | .str _ => false | .int _ => true)

/-- One `"key": value` item. -/
def encEntry (kv : PyKey × PyVal) : List Char :=
  encKey kv.1 ++ ':' :: ' ' :: encVal kv.2

/-- The entry order `sort_keys=True` sorts the items by: the key order. -/
def dictKeyOrder (a b : PyKey × PyVal) : Prop := pyKeyLe a.1 b.1 = true

instance : DecidableRel dictKeyOrder :=
  fun a b => instDecidableEqBool (pyKeyLe a.1 b.1) true

/-- `json.dumps(data, sort_keys=True, default=str)` on a flat dict (Python
`sorted` and `List.insertionSort` are both stable sorts, hence agree). -/
def py_dumps_sorted (d : PyDict) : Except PyErr (List Char) :=
  if keysHomogeneous d then
    .ok ('{' ::
      (List.intercalate [',', ' '] ((d.insertionSort dictKeyOrder).map encEntry)) ++
      ['}'])
  else .error .exn

/-- cache.py lines 37-42 `_generate_cache_key`: serialize canonically, hash,
compose the namespace (the source calls it the key prefix), a colon, and the
hex digest.  The serialized form is ASCII (ensured by `ensure_ascii=True`),
so `.encode()` yields its code points as bytes. -/
def _generate_cache_key (ns : String) (data : PyDict) :
    Except PyErr String :=
  match py_dumps_sorted data with
  | .error e => .error e
  | .ok data_str =>
    .ok (ns ++ ":" ++ ⟨md5hexdigest (data_str.map Char.toNat)⟩)

/-! ## Theorems -/

/-! Sanity checks tying the executable embedding to published/observable
behavior: MD5 test vectors from RFC 1321 and concrete planner outputs
mirrored from tests/test_search.py. -/

set_option maxRecDepth 20000 in
example : (⟨md5hexdigest ("abc".data.map Char.toNat)⟩ : String) =
    "900150983cd24fb0d6963f7d28e17f72" := by decide

set_option maxRecDepth 20000 in
example : (⟨md5hexdigest []⟩ : String) = "d41d8cd98f00b204e9800998ecf8427e" := by
  decide

example : py_dumps_sorted [(.str "b", .int 1), (.str "a", .str "x")] =
    .ok ('{' :: "\"a\": \"x\", \"b\": 1".data ++ ['}']) := by decide

example : py_dumps_sorted [(.int 1, .str "a")] =
    py_dumps_sorted [(.str "1", .str "a")] := by decide

example : py_dumps_sorted [(.int 1, .str "a"), (.str "b", .int 0)] =
    .error .exn := by decide

example : _extract_search_terms "I want an Apple phone?" = "smartphone" := by decide

example : _build_search_query { query := "   ", in_stock_only := false } =
    ⟨[.matchAll], none⟩ := by decide

/-- Every `ProductCategory` member has a nonempty string value, so an
optional category is Python-truthy exactly when it is not `None`. -/
theorem category_value_ne_empty (c : ProductCategory) : c.value ≠ "" := by
  cases c <;> decide

/-- The `must` list of the built query, independent of the filter branch. -/
theorem build_must (r : SearchRequest) :
    (_build_search_query r).must =
      (if pyStrip r.query ≠ "" then
        [MustClause.multiMatch ⟨r.query,
          ["name^3", "description^2", "brand^2", "features", "tags"]⟩]
       else [MustClause.matchAll]) := by
  unfold _build_search_query
  rfl

/-- The hard-filter list of the built query is the concatenation the code
assembles, whether or not the `filter` key is materialized. -/
theorem build_filtersOut (r : SearchRequest) :
    (_build_search_query r).filtersOut =
      (match r.category with
        | some c => if c.value ≠ "" then [FilterClause.termCategory c] else []
        | none => []) ++
      (match r.brand with
        | some b => if b ≠ "" then [FilterClause.termBrandKeyword b] else []
        | none => []) ++
      (if r.in_stock_only then [FilterClause.termInStock true] else []) ++
      (if r.min_price.isSome || r.max_price.isSome then
          [FilterClause.rangePrice r.min_price r.max_price]
        else []) ++
      (match r.min_rating with
        | some m => [FilterClause.rangeRating m]
        | none => []) := by
  have getD_opt : ∀ l : List FilterClause,
      (if l ≠ [] then some l else none).getD [] = l := by
    intro l
    by_cases h : l = [] <;> simp [h]
  unfold _build_search_query EsQuery.filtersOut
  exact getD_opt _

theorem lowerPriceBounds_build (r : SearchRequest) :
    lowerPriceBounds (_build_search_query r) = r.min_price.toList := by
  obtain ⟨q, cat, minp, maxp, br, stock, minr, pg, ps⟩ := r
  unfold lowerPriceBounds
  rw [build_filtersOut]
  dsimp only
  rcases br with _ | b
  · cases cat <;> cases minp <;> cases maxp <;> cases stock <;> cases minr <;>
      simp [List.filterMap_append, category_value_ne_empty, Option.toList]
  · by_cases hb : b = "" <;>
      cases cat <;> cases minp <;> cases maxp <;> cases stock <;>
      cases minr <;>
      simp [List.filterMap_append, category_value_ne_empty, Option.toList, hb]

theorem upperPriceBounds_build (r : SearchRequest) :
    upperPriceBounds (_build_search_query r) = r.max_price.toList := by
  obtain ⟨q, cat, minp, maxp, br, stock, minr, pg, ps⟩ := r
  unfold upperPriceBounds
  rw [build_filtersOut]
  dsimp only
  rcases br with _ | b
  · cases cat <;> cases minp <;> cases maxp <;> cases stock <;> cases minr <;>
      simp [List.filterMap_append, category_value_ne_empty, Option.toList]
  · by_cases hb : b = "" <;>
      cases cat <;> cases minp <;> cases maxp <;> cases stock <;>
      cases minr <;>
      simp [List.filterMap_append, category_value_ne_empty, Option.toList, hb]

theorem ratingFloors_build (r : SearchRequest) :
    ratingFloors (_build_search_query r) = r.min_rating.toList := by
  obtain ⟨q, cat, minp, maxp, br, stock, minr, pg, ps⟩ := r
  unfold ratingFloors
  rw [build_filtersOut]
  dsimp only
  rcases br with _ | b
  · cases cat <;> cases minp <;> cases maxp <;> cases stock <;> cases minr <;>
      simp [List.filterMap_append, category_value_ne_empty, Option.toList]
  · by_cases hb : b = "" <;>
      cases cat <;> cases minp <;> cases maxp <;> cases stock <;>
      cases minr <;>
      simp [List.filterMap_append, category_value_ne_empty, Option.toList, hb]

theorem categoryFilters_build (r : SearchRequest) :
    categoryFilters (_build_search_query r) = r.category.toList := by
  obtain ⟨q, cat, minp, maxp, br, stock, minr, pg, ps⟩ := r
  unfold categoryFilters
  rw [build_filtersOut]
  dsimp only
  rcases br with _ | b
  · cases cat <;> cases minp <;> cases maxp <;> cases stock <;> cases minr <;>
      simp [List.filterMap_append, category_value_ne_empty, Option.toList]
  · by_cases hb : b = "" <;>
      cases cat <;> cases minp <;> cases maxp <;> cases stock <;>
      cases minr <;>
      simp [List.filterMap_append, category_value_ne_empty, Option.toList, hb]

theorem brandFilters_build (r : SearchRequest) :
    brandFilters (_build_search_query r) =
      (match r.brand with
        | some b => if b ≠ "" then [b] else []
        | none => []) := by
  obtain ⟨q, cat, minp, maxp, br, stock, minr, pg, ps⟩ := r
  unfold brandFilters
  rw [build_filtersOut]
  dsimp only
  rcases br with _ | b
  · cases cat <;> cases minp <;> cases maxp <;> cases stock <;> cases minr <;>
      simp [List.filterMap_append, category_value_ne_empty, Option.toList]
  · by_cases hb : b = "" <;>
      cases cat <;> cases minp <;> cases maxp <;> cases stock <;>
      cases minr <;>
      simp [List.filterMap_append, category_value_ne_empty, Option.toList, hb]

theorem hasInStockFilter_build (r : SearchRequest) :
    hasInStockFilter (_build_search_query r) = r.in_stock_only := by
  obtain ⟨q, cat, minp, maxp, br, stock, minr, pg, ps⟩ := r
  unfold hasInStockFilter
  rw [build_filtersOut]
  dsimp only
  rcases br with _ | b
  · cases cat <;> cases minp <;> cases maxp <;> cases stock <;> cases minr <;>
      simp [List.any_append, category_value_ne_empty]
  · by_cases hb : b = "" <;>
      cases cat <;> cases minp <;> cases maxp <;> cases stock <;>
      cases minr <;>
      simp [List.any_append, category_value_ne_empty, hb]

/-- C1: for every descriptor, the planner's relevance clause is fully
determined by the query text: a whitespace-only (trim-empty) query yields the
single universal `match_all` clause, any other query yields the single
weighted multi-field clause whose boosted fields read exactly as name ×3,
description ×2, brand ×2, features ×1, tags ×1. -/
theorem relevance_clause_determined_by_query_text (r : SearchRequest) :
    ((_build_search_query r).must =
      if pyStrip r.query = "" then [MustClause.matchAll]
      else [MustClause.multiMatch ⟨r.query,
        ["name^3", "description^2", "brand^2", "features", "tags"]⟩]) ∧
    ["name^3", "description^2", "brand^2", "features", "tags"].map boostWeight =
      [("name", 3), ("description", 2), ("brand", 2), ("features", 1), ("tags", 1)] := by
  refine ⟨?_, by decide⟩
  rw [build_must]
  by_cases h : pyStrip r.query = "" <;> simp [h]

/-- C2 (amended): filter presence tracks descriptor field presence, with the
truthiness proviso for `category`/`brand`: the lower price bound is present
and equal to `x` exactly when `min_price = some x` (so `min_price = 0` gives
a bound equal to 0, and `min_price = none` gives no lower bound at all);
likewise for the upper bound and the rating floor; the category filter is
present iff the category is present (every category value is truthy); the
brand filter is present iff the brand is present AND non-empty; no other
filter is ever synthesized with permissive bounds. -/
theorem filter_presence_tracks_descriptor (r : SearchRequest) :
    lowerPriceBounds (_build_search_query r) = r.min_price.toList ∧
    upperPriceBounds (_build_search_query r) = r.max_price.toList ∧
    ratingFloors (_build_search_query r) = r.min_rating.toList ∧
    categoryFilters (_build_search_query r) = r.category.toList ∧
    brandFilters (_build_search_query r) =
      (match r.brand with
        | some b => if b ≠ "" then [b] else []
        | none => []) ∧
    hasInStockFilter (_build_search_query r) = r.in_stock_only :=
  ⟨lowerPriceBounds_build r, upperPriceBounds_build r, ratingFloors_build r,
   categoryFilters_build r, brandFilters_build r, hasInStockFilter_build r⟩

/-- C2 counterexample: a descriptor whose `brand` field is present but empty
(`brand=""`, which pydantic admits) produces no brand filter, refuting
"a hard filter appears exactly when the corresponding descriptor field is
present". -/
theorem brand_present_but_no_brand_filter :
    (({ query := "x", brand := some "", in_stock_only := false } :
        SearchRequest).brand).isSome = true ∧
    brandFilters (_build_search_query
      { query := "x", brand := some "", in_stock_only := false }) = [] := by
  constructor
  · rfl
  · decide

/-- C9 (amended): the structured query contains an `in_stock` condition
exactly when the descriptor's stock-only flag is `True`; since the flag
defaults to `True` (models.py line 66), a descriptor constructed without
specifying it yields a query WITH the `in_stock` condition. -/
theorem in_stock_filter_iff_flag (r : SearchRequest) (q : String) :
    (hasInStockFilter (_build_search_query r) = r.in_stock_only) ∧
    ({ query := q } : SearchRequest).in_stock_only = true ∧
    hasInStockFilter (_build_search_query { query := q }) = true :=
  ⟨hasInStockFilter_build r, rfl, hasInStockFilter_build { query := q }⟩

/-- C9 counterexample: the descriptor `SearchRequest(query="laptop")`, built
without specifying the stock-only flag, yields a structured query that DOES
contain an `in_stock` condition (the flag defaults to `True`), refuting the
claim that it contains none. -/
theorem default_descriptor_has_in_stock_filter :
    ({ query := "laptop" } : SearchRequest).in_stock_only = true ∧
    hasInStockFilter (_build_search_query { query := "laptop" }) = true := by
  exact ⟨rfl, by decide⟩

/-- C3: if any step of the chat pipeline raises, `chat` returns the fixed
apology string with an empty product list, exactly the three generic
suggestions, and no context; `chat` is a total function, so a chat turn never
propagates an exception to its caller. -/
theorem chat_absorbs_pipeline_errors (env : ChatEnv) (msg : ChatMessage)
    (h : ∃ e, chatPipeline env msg = .error e) :
    chat env msg = fallbackChatResponse ∧
    (chat env msg).response =
      "I apologize, but I\x27m having trouble processing your request right now. Please try again later." ∧
    (chat env msg).products = [] ∧
    (chat env msg).suggestions =
      ["Try a different search", "Browse categories", "Contact support"] ∧
    (chat env msg).suggestions.length = 3 ∧
    (chat env msg).context = none := by
  obtain ⟨e, he⟩ := h
  unfold chat
  rw [he]
  exact ⟨rfl, rfl, rfl, rfl, rfl, rfl⟩

/-- Witness for C3: a concrete environment whose retrieval step raises. -/
theorem chat_absorbs_pipeline_errors_witness :
    chat
      { extract := fun m => .ok (_extract_search_terms m),
        search := fun _ => .error .exn,
        generate := fun _ _ => .ok "hi",
        suggest := fun m ps => .ok (_generate_suggestions m ps) }
      ⟨"I need a laptop"⟩ = fallbackChatResponse :=
  (chat_absorbs_pipeline_errors
    { extract := fun m => .ok (_extract_search_terms m),
      search := fun _ => .error .exn,
      generate := fun _ _ => .ok "hi",
      suggest := fun m ps => .ok (_generate_suggestions m ps) }
    ⟨"I need a laptop"⟩ ⟨.exn, by decide⟩).1

/-- C7: if the index query raises, `search_products` returns the empty-result
response with `total = 0`, `total_pages = 0` and an empty product list,
echoing the query and pagination, instead of propagating the error. -/
theorem search_failure_yields_empty_response (es : EsOracle) (r : SearchRequest)
    (h : ∃ e, es (_build_search_query r) ((r.page - 1) * r.page_size)
      r.page_size = .error e) :
    search_products es r =
      { query := r.query, products := [], total := 0, page := r.page,
        page_size := r.page_size, total_pages := 0 } := by
  obtain ⟨e, he⟩ := h
  unfold search_products
  rw [he]

/-- Witness for C7: a concrete always-raising index oracle. -/
theorem search_failure_yields_empty_response_witness :
    search_products (fun _ _ _ => .error .exn) { query := "laptop" } =
      { query := "laptop", products := [], total := 0, page := 1,
        page_size := 20, total_pages := 0 } :=
  search_failure_yields_empty_response (fun _ _ _ => .error .exn)
    { query := "laptop" } ⟨.exn, rfl⟩

/-- Nat ceiling division, as the code computes it, coincides with the exact
rational ceiling. -/
theorem nat_ceil_div_cast (a b : ℕ) (hb : 0 < b) :
    (((a + b - 1) / b : ℕ) : ℤ) = ⌈(a : ℚ) / (b : ℚ)⌉ := by
  have hb0 : (0 : ℚ) < (b : ℚ) := by exact_mod_cast hb
  set q := (a + b - 1) / b with hq
  have h1 : q * b ≤ a + b - 1 := Nat.div_mul_le_self (a + b - 1) b
  have h2 : a + b - 1 < b * (q + 1) := Nat.lt_mul_div_succ (a + b - 1) hb
  rw [Nat.mul_succ] at h2
  have ha1 : a ≤ b * q := by omega
  have ha2 : q * b < a + b := by omega
  have ha1q : (a : ℚ) ≤ (b : ℚ) * (q : ℚ) := by exact_mod_cast ha1
  have ha2q : (q : ℚ) * (b : ℚ) < (a : ℚ) + (b : ℚ) := by exact_mod_cast ha2
  symm
  rw [Int.ceil_eq_iff]
  constructor
  · push_cast
    rw [lt_div_iff hb0]
    nlinarith
  · push_cast
    rw [div_le_iff hb0]
    nlinarith

/-- Nat ceiling division is zero exactly on zero numerators. -/
theorem nat_ceil_div_eq_zero_iff (a b : ℕ) (hb : 0 < b) :
    (a + b - 1) / b = 0 ↔ a = 0 := by
  rw [Nat.div_eq_zero_iff hb]
  omega

/-- C8: every response of `search_products` satisfies
`total_pages = ceil(total / page_size)` and `total_pages = 0 ↔ total = 0`
(given a valid `page_size ≥ 1`), on the success path and the failure path
alike; and an index with zero matching records yields the empty response
with `total = 0` and `total_pages = 0`. -/
theorem total_pages_is_ceil (es : EsOracle) (r : SearchRequest)
    (hps : 1 ≤ r.page_size) :
    (((search_products es r).total_pages : ℤ) =
      ⌈((search_products es r).total : ℚ) /
        ((search_products es r).page_size : ℚ)⌉) ∧
    ((search_products es r).total_pages = 0 ↔ (search_products es r).total = 0) ∧
    (es (_build_search_query r) ((r.page - 1) * r.page_size) r.page_size =
        .ok ⟨[], 0⟩ →
      search_products es r =
        { query := r.query, products := [], total := 0, page := r.page,
          page_size := r.page_size, total_pages := 0 }) := by
  unfold search_products
  cases hres : es (_build_search_query r) ((r.page - 1) * r.page_size)
      r.page_size with
  | error e =>
    refine ⟨by simp, by simp, fun hok => Except.noConfusion hok⟩
  | ok res =>
    refine ⟨?_, ?_, fun hok => ?_⟩
    · dsimp only
      exact nat_ceil_div_cast res.total r.page_size hps
    · dsimp only
      exact nat_ceil_div_eq_zero_iff res.total r.page_size hps
    · injection hok with hok
      subst hok
      have hz : (r.page_size - 1) / r.page_size = 0 :=
        Nat.div_eq_of_lt (by omega)
      simp [hz]

/-- Witness for C8: a concrete empty index oracle and the scenario-A
descriptor `{query := "laptop", page := 1, page_size := 10}`. -/
theorem total_pages_is_ceil_witness :
    ((search_products (fun _ _ _ => .ok ⟨[], 0⟩)
        { query := "laptop", page := 1, page_size := 10 }).total_pages = 0 ↔
      (search_products (fun _ _ _ => .ok ⟨[], 0⟩)
        { query := "laptop", page := 1, page_size := 10 }).total = 0) ∧
    search_products (fun _ _ _ => .ok ⟨[], 0⟩)
        { query := "laptop", page := 1, page_size := 10 } =
      { query := "laptop", products := [], total := 0, page := 1,
        page_size := 10, total_pages := 0 } := by
  have h := total_pages_is_ceil (fun _ _ _ => .ok ⟨[], 0⟩)
    { query := "laptop", page := 1, page_size := 10 } (by decide)
  exact ⟨h.2.1, h.2.2 rfl⟩

/-- Every category search term produced by the keyword table is distinct
from every brand keyword. -/
theorem category_terms_not_brands :
    ∀ kv ∈ category_keywords, kv.2 ∉ brand_keywords := by decide

/-- C4: whenever the (lowercased) message contains a category keyword — in
particular when it also contains a brand keyword — `_extract_search_terms`
returns a category-table mapping and never a brand keyword; a message
containing "phone" (e.g. together with "apple") maps to "smartphone". -/
theorem extract_category_beats_brand (m k t b : String)
    (hk : (k, t) ∈ category_keywords)
    (hsub : containsSub (pyLower m) k = true)
    (hb : b ∈ brand_keywords)
    (hbsub : containsSub (pyLower m) b = true) :
    _extract_search_terms m ∈ category_keywords.map Prod.snd ∧
    _extract_search_terms m ∉ brand_keywords ∧
    (containsSub (pyLower m) "phone" = true →
      _extract_search_terms m = "smartphone") := by
  have hsome : (category_keywords.find?
      (fun kv => containsSub (pyLower m) kv.1)).isSome := by
    rw [List.find?_isSome]
    exact ⟨(k, t), hk, hsub⟩
  obtain ⟨kv, hfind⟩ := Option.isSome_iff_exists.mp hsome
  have hkv_mem : kv ∈ category_keywords := List.mem_of_find?_eq_some hfind
  have hval : _extract_search_terms m = kv.2 := by
    unfold _extract_search_terms
    dsimp only
    rw [hfind]
  refine ⟨?_, ?_, ?_⟩
  · rw [hval]
    exact List.mem_map_of_mem Prod.snd hkv_mem
  · rw [hval]
    exact category_terms_not_brands kv hkv_mem
  · intro hp
    have hfirst : category_keywords.find?
        (fun kv => containsSub (pyLower m) kv.1) =
        some ("phone", "smartphone") := by
      unfold category_keywords
      exact List.find?_cons_of_pos _ hp
    unfold _extract_search_terms
    dsimp only
    rw [hfirst]

/-- Witness for C4: the message "I want an Apple phone" contains category
keyword "phone" and brand keyword "apple" and extracts to "smartphone". -/
theorem extract_category_beats_brand_witness :
    _extract_search_terms "I want an Apple phone" ∈
      category_keywords.map Prod.snd ∧
    _extract_search_terms "I want an Apple phone" ∉ brand_keywords ∧
    _extract_search_terms "I want an Apple phone" = "smartphone" := by
  have h := extract_category_beats_brand "I want an Apple phone" "phone"
    "smartphone" "apple" (by decide) (by decide) (by decide) (by decide)
  exact ⟨h.1, h.2.1, h.2.2 (by decide)⟩

/-! Order properties of the `sort_keys=True` key order, and permutation
invariance of the canonical serialization. -/

theorem charListLe_total (a b : List Char) :
    (charListLe a b || charListLe b a) = true := by
  induction a generalizing b with
  | nil => simp [charListLe]
  | cons x xs ih =>
    cases b with
    | nil => simp [charListLe]
    | cons y ys =>
      by_cases h1 : x.toNat < y.toNat
      · simp [charListLe, h1]
      · by_cases h2 : y.toNat < x.toNat
        · simp [charListLe, h1, h2]
        · simpa [charListLe, h1, h2] using ih ys

theorem charListLe_trans (a b c : List Char) (h1 : charListLe a b = true)
    (h2 : charListLe b c = true) : charListLe a c = true := by
  induction a generalizing b c with
  | nil => simp [charListLe]
  | cons x xs ih =>
    cases b with
    | nil => simp [charListLe] at h1
    | cons y ys =>
      cases c with
      | nil => simp [charListLe] at h2
      | cons z zs =>
        simp only [charListLe] at h1 h2 ⊢
        rcases Nat.lt_trichotomy x.toNat y.toNat with hxy | hxy | hxy
        · rcases Nat.lt_trichotomy y.toNat z.toNat with hyz | hyz | hyz
          · simp [show x.toNat < z.toNat by omega]
          · simp [show x.toNat < z.toNat by omega]
          · rw [if_neg (by omega), if_pos (by omega)] at h2
            exact absurd h2 (by decide)
        · rcases Nat.lt_trichotomy y.toNat z.toNat with hyz | hyz | hyz
          · simp [show x.toNat < z.toNat by omega]
          · rw [if_neg (by omega), if_neg (by omega)] at h1
            rw [if_neg (by omega), if_neg (by omega)] at h2
            rw [if_neg (by omega), if_neg (by omega)]
            exact ih ys zs h1 h2
          · rw [if_neg (by omega), if_pos (by omega)] at h2
            exact absurd h2 (by decide)
        · rw [if_neg (by omega), if_pos (by omega)] at h1
          exact absurd h1 (by decide)

theorem charListLe_antisymm (a b : List Char) (h1 : charListLe a b = true)
    (h2 : charListLe b a = true) : a = b := by
  induction a generalizing b with
  | nil =>
    cases b with
    | nil => rfl
    | cons y ys => simp [charListLe] at h2
  | cons x xs ih =>
    cases b with
    | nil => simp [charListLe] at h1
    | cons y ys =>
      simp only [charListLe] at h1 h2
      rcases Nat.lt_trichotomy x.toNat y.toNat with hxy | hxy | hxy
      · rw [if_neg (by omega), if_pos (by omega)] at h2
        exact absurd h2 (by decide)
      · have hx : x = y := Char.ext (UInt32.ext hxy)
        subst hx
        rw [if_neg (lt_irrefl _), if_neg (lt_irrefl _)] at h1
        rw [if_neg (lt_irrefl _), if_neg (lt_irrefl _)] at h2
        rw [ih ys h1 h2]
      · rw [if_neg (by omega), if_pos (by omega)] at h1
        exact absurd h1 (by decide)

theorem pyKeyLe_total (a b : PyKey) : (pyKeyLe a b || pyKeyLe b a) = true := by
  cases a with
  | str s =>
    cases b with
    | str t =>
      simpa [pyKeyLe] using
        Bool.or_eq_true_iff.mp (charListLe_total s.data t.data)
    | int n => simp [pyKeyLe]
  | int m =>
    cases b with
    | str t => simp [pyKeyLe]
    | int n => simpa [pyKeyLe] using Int.le_total m n

theorem pyKeyLe_trans (a b c : PyKey) (h1 : pyKeyLe a b = true)
    (h2 : pyKeyLe b c = true) : pyKeyLe a c = true := by
  cases a with
  | str s =>
    cases b with
    | str t =>
      cases c with
      | str u =>
        simp only [pyKeyLe] at h1 h2 ⊢
        exact charListLe_trans _ _ _ h1 h2
      | int n => simp [pyKeyLe] at h2
    | int n => simp [pyKeyLe] at h1
  | int m =>
    cases b with
    | str t =>
      cases c with
      | str u => simp [pyKeyLe]
      | int n => simp [pyKeyLe] at h2
    | int n =>
      cases c with
      | str u => simp [pyKeyLe]
      | int k =>
        simp only [pyKeyLe, decide_eq_true_eq] at h1 h2 ⊢
        omega

theorem pyKeyLe_antisymm (a b : PyKey) (h1 : pyKeyLe a b = true)
    (h2 : pyKeyLe b a = true) : a = b := by
  cases a with
  | str s =>
    cases b with
    | str t =>
      obtain ⟨sd⟩ := s
      obtain ⟨td⟩ := t
      simp only [pyKeyLe] at h1 h2
      rw [charListLe_antisymm sd td h1 h2]
    | int n => simp [pyKeyLe] at h1
  | int m =>
    cases b with
    | str t => simp [pyKeyLe] at h2
    | int n =>
      simp only [pyKeyLe, decide_eq_true_eq] at h1 h2
      rw [Int.le_antisymm h1 h2]

theorem perm_all_eq {α : Type _} (p : α → Bool) {l1 l2 : List α}
    (h : l1.Perm l2) : l1.all p = l2.all p := by
  rw [Bool.eq_iff_iff, List.all_eq_true, List.all_eq_true]
  constructor
  · intro hall x hx
    exact hall x (h.mem_iff.mpr hx)
  · intro hall x hx
    exact hall x (h.mem_iff.mp hx)

instance : IsTotal (PyKey × PyVal) dictKeyOrder :=
  ⟨fun a b => by
    have h := pyKeyLe_total a.1 b.1
    rcases Bool.or_eq_true_iff.mp h with h | h
    · exact Or.inl h
    · exact Or.inr h⟩

instance : IsTrans (PyKey × PyVal) dictKeyOrder :=
  ⟨fun a b c h1 h2 => pyKeyLe_trans a.1 b.1 c.1 h1 h2⟩

/-- The strict version of `dictKeyOrder` (distinct keys), which is
antisymmetric outright. -/
def dictKeyLT (a b : PyKey × PyVal) : Prop := dictKeyOrder a b ∧ a.1 ≠ b.1

instance : IsAntisymm (PyKey × PyVal) dictKeyLT :=
  ⟨fun a b h1 h2 => absurd (pyKeyLe_antisymm a.1 b.1 h1.1 h2.1) h1.2⟩

/-- A key-nodup dict sorted by the lax key order is sorted by the strict one. -/
theorem sorted_strict_of_sorted_nodup {l : PyDict}
    (hs : l.Sorted dictKeyOrder) (hn : (l.map Prod.fst).Nodup) :
    l.Sorted dictKeyLT := by
  have hne : l.Pairwise (fun a b => a.1 ≠ b.1) := List.pairwise_map.mp hn
  exact (List.Pairwise.and hs hne :)

/-- Stable sorting is permutation-invariant on dicts with distinct keys: this
is why `sort_keys=True` canonicalizes field order. -/
theorem insertionSort_perm_eq (p q : PyDict) (hperm : p.Perm q)
    (hnodup : (p.map Prod.fst).Nodup) :
    p.insertionSort dictKeyOrder = q.insertionSort dictKeyOrder := by
  have hps : (p.insertionSort dictKeyOrder).Perm p :=
    List.perm_insertionSort dictKeyOrder p
  have hqs : (q.insertionSort dictKeyOrder).Perm q :=
    List.perm_insertionSort dictKeyOrder q
  have hnodup_ps : ((p.insertionSort dictKeyOrder).map Prod.fst).Nodup :=
    ((hps.map Prod.fst).nodup_iff).mpr hnodup
  have hnodup_q : (q.map Prod.fst).Nodup :=
    ((hperm.map Prod.fst).nodup_iff).mp hnodup
  have hnodup_qs : ((q.insertionSort dictKeyOrder).map Prod.fst).Nodup :=
    ((hqs.map Prod.fst).nodup_iff).mpr hnodup_q
  refine List.eq_of_perm_of_sorted (r := dictKeyLT)
    (hps.trans (hperm.trans hqs.symm)) ?_ ?_
  · exact sorted_strict_of_sorted_nodup
      (List.sorted_insertionSort dictKeyOrder p) hnodup_ps
  · exact sorted_strict_of_sorted_nodup
      (List.sorted_insertionSort dictKeyOrder q) hnodup_qs

/-- Key-type homogeneity is permutation-invariant. -/
theorem keysHomogeneous_perm {p q : PyDict} (hperm : p.Perm q) :
    keysHomogeneous p = keysHomogeneous q := by
  unfold keysHomogeneous
  rw [perm_all_eq _ hperm, perm_all_eq _ hperm]

/-- The canonical serialization is permutation-invariant on dicts with
distinct keys. -/
theorem py_dumps_sorted_perm (p q : PyDict) (hperm : p.Perm q)
    (hnodup : (p.map Prod.fst).Nodup) :
    py_dumps_sorted p = py_dumps_sorted q := by
  unfold py_dumps_sorted
  rw [keysHomogeneous_perm hperm, insertionSort_perm_eq p q hperm hnodup]

/-- C6 (amended): the derived key is a pure function of the namespace and the
canonical serialization, composed as `"{namespace}:{md5-hex}"`: structurally
equal payloads yield identical keys regardless of field order; payloads
differing in a field yield different keys when their canonical serializations
hash apart (witnessed on the unit-test payloads `{query: laptop, page: 1}`
vs `{query: phone, page: 1}`); but the serialization identifies a non-JSON
object with its `str()` rendering (`default=str`), so such payload pairs
collide. -/
theorem cache_key_of_canonical_payload (ns : String) (p q : PyDict)
    (hperm : p.Perm q) (hnodup : (p.map Prod.fst).Nodup) :
    _generate_cache_key ns p = _generate_cache_key ns q ∧
    (∀ s, py_dumps_sorted p = .ok s →
      _generate_cache_key ns p =
        .ok (ns ++ ":" ++ ⟨md5hexdigest (s.map Char.toNat)⟩)) ∧
    _generate_cache_key "search"
        [(.str "query", .str "laptop"), (.str "page", .int 1)] ≠
      _generate_cache_key "search"
        [(.str "query", .str "phone"), (.str "page", .int 1)] := by
  refine ⟨?_, ?_, ?_⟩
  · unfold _generate_cache_key
    rw [py_dumps_sorted_perm p q hperm hnodup]
  · intro s hs
    unfold _generate_cache_key
    rw [hs]
  · decide

/-- Witness for C6: the same two-field payload in both field orders. -/
theorem cache_key_of_canonical_payload_witness :
    _generate_cache_key "search"
        [(.str "page", .int 1), (.str "query", .str "laptop")] =
      _generate_cache_key "search"
        [(.str "query", .str "laptop"), (.str "page", .int 1)] :=
  (cache_key_of_canonical_payload "search"
    [(.str "page", .int 1), (.str "query", .str "laptop")]
    [(.str "query", .str "laptop"), (.str "page", .int 1)]
    (by decide) (by decide)).1

/-- C6 counterexample: two payloads that differ in the `created_at` field —
one holds a datetime-like object, the other its `str()` rendering — serialize
identically under `default=str` and therefore derive the SAME cache key,
refuting "payloads differing in any field derive different keys". -/
theorem distinct_payloads_same_cache_key :
    ([(.str "created_at", .obj "2024-01-01 00:00:00")] : PyDict) ≠
      [(.str "created_at", .str "2024-01-01 00:00:00")] ∧
    _generate_cache_key "search"
        [(.str "created_at", .obj "2024-01-01 00:00:00")] =
      _generate_cache_key "search"
        [(.str "created_at", .str "2024-01-01 00:00:00")] :=
  ⟨by decide, rfl⟩

/-! Visual-similarity lemmas. -/

theorem sumSq_cons (x : ℝ) (xs : List ℝ) : sumSq (x :: xs) = x * x + sumSq xs := by
  simp [sumSq]

theorem sumSq_nonneg (v : List ℝ) : 0 ≤ sumSq v := by
  apply List.sum_nonneg
  intro y hy
  obtain ⟨x, _, rfl⟩ := List.mem_map.mp hy
  exact mul_self_nonneg x

theorem dotE_map_div_self (v : List ℝ) (c : ℝ) :
    dotE (v.map fun x => x / c) (v.map fun x => x / c) =
      .ok (sumSq v / (c * c)) := by
  induction v with
  | nil => simp [dotE, sumSq]
  | cons x xs ih =>
    simp only [List.map_cons, dotE, ih, sumSq_cons]
    congr 1
    rw [div_mul_div_comm, div_add_div_same]

theorem calculate_similarity_self (q : List ℝ) (hq : sumSq q ≠ 0) :
    calculate_similarity q q = 1 := by
  have hd : dotE (normalizeVec q) (normalizeVec q) =
      .ok (sumSq q / (l2norm q * l2norm q)) := by
    unfold normalizeVec
    exact dotE_map_div_self q (l2norm q)
  unfold calculate_similarity
  rw [hd]
  show sumSq q / (l2norm q * l2norm q) = 1
  unfold l2norm
  rw [Real.mul_self_sqrt (sumSq_nonneg q), div_self hq]

theorem dotE_error_of_length_ne (v w : List ℝ) (h : v.length ≠ w.length) :
    dotE v w = .error .exn := by
  induction v generalizing w with
  | nil =>
    cases w with
    | nil => simp at h
    | cons y ys => rfl
  | cons x xs ih =>
    cases w with
    | nil => rfl
    | cons y ys =>
      have hlen : xs.length ≠ ys.length := by simpa using h
      simp only [dotE, ih ys hlen]

theorem calculate_similarity_length_ne (e1 e2 : List ℝ)
    (h : e1.length ≠ e2.length) : calculate_similarity e1 e2 = 0 := by
  unfold calculate_similarity
  rw [dotE_error_of_length_ne (normalizeVec e1) (normalizeVec e2)
    (by simpa [normalizeVec] using h)]

instance : IsTotal (String × ℝ) simGE := ⟨fun a b => le_total b.2 a.2⟩

instance : IsTrans (String × ℝ) simGE := ⟨fun a b c h1 h2 => le_trans h2 h1⟩

/-- Every member of the ranked result clears the threshold and carries the
similarity score of one of the supplied candidates. -/
theorem mem_search_similar (q : List ℝ) (cands : List (String × List ℝ))
    (k : Nat) (t : ℝ) (x : String × ℝ)
    (hx : x ∈ search_similar_products q cands k t) :
    t ≤ x.2 ∧ ∃ e, (x.1, e) ∈ cands ∧ calculate_similarity q e = x.2 := by
  unfold search_similar_products at hx
  have hx1 := List.take_subset _ _ hx
  have hx2 := (List.perm_insertionSort simGE _).mem_iff.mp hx1
  rw [List.mem_filterMap] at hx2
  obtain ⟨pe, hpe, hf⟩ := hx2
  dsimp only at hf
  by_cases hth : t ≤ calculate_similarity q pe.2
  · rw [if_pos hth] at hf
    obtain rfl : (pe.1, calculate_similarity q pe.2) = x := Option.some.inj hf
    exact ⟨hth, pe.2, by simpa using hpe, rfl⟩
  · rw [if_neg hth] at hf
    cases hf

/-- C5: the similarity ranking scores every candidate, discards every
candidate below the threshold, sorts the survivors in descending score
order, and returns at most `top_k` of them; and in the scenario where the
query embedding coincides with one candidate's embedding (a nonzero vector)
while every other candidate scores below 0.3, with threshold 0.3 and
`top_k = 10`, the result is exactly that candidate, at rank 1, with score 1. -/
theorem similarity_ranking_spec (q : List ℝ) (pre post : List (String × List ℝ))
    (pid : String) (hq : sumSq q ≠ 0)
    (hothers : ∀ x ∈ pre ++ post, calculate_similarity q x.2 < 3 / 10) :
    (∀ (cands : List (String × List ℝ)) (k : Nat) (t : ℝ),
      (search_similar_products q cands k t).length ≤ k ∧
      List.Sorted simGE (search_similar_products q cands k t) ∧
      (∀ x ∈ search_similar_products q cands k t,
        t ≤ x.2 ∧ ∃ e, (x.1, e) ∈ cands ∧ calculate_similarity q e = x.2) ∧
      (∀ pe ∈ cands, calculate_similarity q pe.2 < t →
        (pe.1, calculate_similarity q pe.2) ∉
          search_similar_products q cands k t)) ∧
    calculate_similarity q q = 1 ∧
    search_similar_products q (pre ++ (pid, q) :: post) 10 (3 / 10) =
      [(pid, 1)] := by
  have hself : calculate_similarity q q = 1 := calculate_similarity_self q hq
  refine ⟨fun cands k t => ⟨?_, ?_, ?_, ?_⟩, hself, ?_⟩
  · exact List.length_take_le k _
  · unfold search_similar_products
    exact (List.sorted_insertionSort simGE _).sublist (List.take_sublist _ _)
  · exact fun x hx => mem_search_similar q cands k t x hx
  · intro pe hpe hlt hmem
    have := (mem_search_similar q cands k t _ hmem).1
    exact absurd (lt_of_le_of_lt this hlt) (lt_irrefl _)
  · unfold search_similar_products
    have hsurv : (pre ++ (pid, q) :: post).filterMap
        (fun pe =>
          let similarity := calculate_similarity q pe.2
          if 3 / 10 ≤ similarity then some (pe.1, similarity) else none) =
        [(pid, 1)] := by
      rw [List.filterMap_append]
      have hpre : pre.filterMap
          (fun pe =>
            let similarity := calculate_similarity q pe.2
            if 3 / 10 ≤ similarity then some (pe.1, similarity) else none) =
          [] := by
        rw [List.filterMap_eq_nil]
        intro pe hpe
        dsimp only
        rw [if_neg (not_le.mpr (hothers pe (List.mem_append_left _ hpe)))]
      have hpost : post.filterMap
          (fun pe =>
            let similarity := calculate_similarity q pe.2
            if 3 / 10 ≤ similarity then some (pe.1, similarity) else none) =
          [] := by
        rw [List.filterMap_eq_nil]
        intro pe hpe
        dsimp only
        rw [if_neg (not_le.mpr (hothers pe (List.mem_append_right _ hpe)))]
      rw [hpre, List.filterMap_cons, hpost]
      dsimp only
      rw [hself, if_pos (by norm_num)]
      rfl
    rw [hsurv]
    rfl

/-- Witness for C5: query embedding (1,0) matching candidate "p" exactly,
with two other candidates of similarity 0 and -1. -/
theorem similarity_ranking_spec_witness :
    calculate_similarity [(1 : ℝ), 0] [(1 : ℝ), 0] = 1 ∧
    search_similar_products [(1 : ℝ), 0]
        ([("a", [0, 1])] ++ ("p", [(1 : ℝ), 0]) :: [("b", [0, -1])]) 10
        (3 / 10) = [("p", 1)] := by
  have h := similarity_ranking_spec [(1 : ℝ), 0] [("a", [0, 1])]
    [("b", [0, -1])] "p"
    (by norm_num [sumSq])
    (by
      intro x hx
      rcases List.mem_append.mp hx with hx | hx <;>
        rcases List.mem_singleton.mp hx with rfl <;>
        simp [calculate_similarity, normalizeVec, l2norm, sumSq, dotE,
          Real.sqrt_one])

  exact ⟨h.2.1, h.2.2⟩

/-- C10: two embeddings whose dimensions differ (so `np.dot` raises) get
similarity 0.0 instead of an error, and consequently, for any positive
threshold, a candidate whose embedding dimension differs from the query's is
silently omitted from the ranked result rather than reported as a failure. -/
theorem mismatched_dimension_scores_zero (query e : List ℝ) (p : String)
    (cands : List (String × List ℝ)) (k : Nat) (t : ℝ)
    (ht : 0 < t) (he : e.length ≠ query.length) :
    calculate_similarity query e = 0 ∧
    (p, calculate_similarity query e) ∉
      search_similar_products query cands k t := by
  have h0 : calculate_similarity query e = 0 :=
    calculate_similarity_length_ne query e (fun hh => he hh.symm)
  refine ⟨h0, ?_⟩
  rw [h0]
  intro hmem
  have hscore := (mem_search_similar query cands k t _ hmem).1
  exact absurd (lt_of_lt_of_le ht hscore) (lt_irrefl _)

/-- Witness for C10: a 1-dimensional candidate embedding against a
2-dimensional query with threshold 0.3. -/
theorem mismatched_dimension_scores_zero_witness :
    calculate_similarity [(1 : ℝ), 0] [(5 : ℝ)] = 0 ∧
    ("q", calculate_similarity [(1 : ℝ), 0] [(5 : ℝ)]) ∉
      search_similar_products [(1 : ℝ), 0] [("q", [(5 : ℝ)])] 10 (3 / 10) :=
  mismatched_dimension_scores_zero [(1 : ℝ), 0] [(5 : ℝ)] "q"
    [("q", [(5 : ℝ)])] 10 (3 / 10) (by norm_num) (by simp)

end SmartShopper
